import Mathlib

/-!
Shallow embedding of the post controller in `src/routes/api/posts.js`
(Ou-Social).  Each Express handler becomes a pure Lean function from the
request parameters and the current document-store state to an HTTP
response together with the next store state.  Mongoose documents become
Lean structures; the document store becomes a `List Post`; `findById`
becomes a first-match lookup by id; `save` writes the document back by id;
a JavaScript null-dereference inside the handler's `try` block is modelled
by taking the handler's `catch` branch (status 500, body `Server error`),
which is exactly what the running code does since none of the thrown
`TypeError`/`ReferenceError` values carries `kind === 'ObjectId'`.
-/

namespace OuSocial

/-- A like entry on a post.  The source pushes objects of the form
`{ user: req.user.id }`; the store-assigned opaque id of a like entry is
never read by any handler in `posts.js`, so it is omitted here. -/
structure Like where
  user : String
deriving DecidableEq, Repr

/-- A comment on a post, as used by `posts.js`: the comment-on-post handler
builds `{ text, name, avatar, user }` and the store assigns `id`; the
store-assigned creation date is never read by any handler, so it is
omitted here. -/
structure Comment where
  id : String
  text : String
  name : String
  avatar : String
  user : String
deriving DecidableEq, Repr

/-- A post document.  Field for field the schema used by `posts.js`:
`text`, denormalized `name`/`avatar`, owner reference `user`, the `likes`
and `comments` arrays (newest first), and the creation `date` used by the
listing sort.  The stored owner reference (an ObjectId in the source) is a
`String` here, so the source's `.toString()` normalizations are the
identity. -/
structure Post where
  id : String
  text : String
  name : String
  avatar : String
  user : String
  likes : List Like
  comments : List Comment
  date : Int
deriving DecidableEq, Repr

/-- A user record as read back by `User.findById(req.user.id)` (only the
`name` and `avatar` fields are used by the handlers). -/
structure UserRec where
  id : String
  name : String
  avatar : String
deriving DecidableEq, Repr

/-- A JSON response body, one constructor per shape the handlers produce:
`res.json({msg})`, `res.send('Server error')`, `res.json({errors})`,
a single post, the post list, the likes array, the comments array. -/
inductive Body where
  | msg (s : String)
  | text (s : String)
  | errors (es : List String)
  | post (p : Post)
  | posts (ps : List Post)
  | likes (ls : List Like)
  | comments (cs : List Comment)
deriving DecidableEq, Repr

/-- An HTTP response: status code plus JSON body. -/
structure Response where
  status : Nat
  body : Body
deriving DecidableEq, Repr

/-- The document store: the collection of post documents.
`Post.findById` is a lookup of the first document with the given id. -/
def findById (store : List Post) (pid : String) : Option Post :=
  store.find? (fun p => p.id = pid)

/-- Writing a modified document back with `post.save()`: every stored
document with the saved document's id is replaced by it, the rest of the
collection is untouched. -/
def save (store : List Post) (p : Post) : List Post :=
  store.map (fun q => if q.id = p.id then p else q)

/-- Index of the first occurrence of `x` in `l`, if any (helper for
JavaScript's `Array.prototype.indexOf`). -/
def firstIdx (l : List String) (x : String) : Option Nat :=
  match l with
  | [] => none
  | y :: ys => if y = x then some 0 else (firstIdx ys x).map (fun i => i + 1)

/-- JavaScript `Array.prototype.indexOf`: first index of `x`, or `-1`. -/
def jsIndexOf (l : List String) (x : String) : Int :=
  match firstIdx l x with
  | some i => (i : Int)
  | none => -1

/-- JavaScript `arr.splice(i, 1)` viewed as the resulting array: a negative
start counts from the end (clamped at 0), and the element at the resolved
position, if any, is removed. -/
def jsSpliceRemoveOne (l : List α) (i : Int) : List α :=
  let s : Nat := if i < 0 then ((l.length : Int) + i).toNat else i.toNat
  l.take s ++ l.drop (s + 1)

/-- POST `api/posts` — create a post.  The express-validator chain
`check('text').not().isEmpty()` rejects an empty `text` with a 400 and the
field-error list before any store access; otherwise the handler loads the
caller's user record (a missing record makes `user.name` throw, caught as
500), builds the new post with denormalized name/avatar and empty
likes/comments, and saves it.  The store assigns `newId` and `now`; the
insertion position in the collection is unspecified, modelled as cons. -/
def createPostHandler (store : List Post) (users : List UserRec)
    (userId text newId : String) (now : Int) : Response × List Post :=
  if text = "" then
    (⟨400, Body.errors ["Text is required"]⟩, store)
  else
    match users.find? (fun u => u.id = userId) with
    | none => (⟨500, Body.text "Server error"⟩, store)
    | some u =>
        let newPost : Post :=
          { id := newId, text := text, name := u.name, avatar := u.avatar,
            user := userId, likes := [], comments := [], date := now }
        (⟨200, Body.post newPost⟩, newPost :: store)

/-- The sort the store performs for `Post.find().sort({ date: -1 })`:
posts in descending order of creation date (a stable insertion sort, as a
concrete model of the store's ordering guarantee). -/
def dateGe (a b : Post) : Prop := b.date ≤ a.date

instance : DecidableRel dateGe := fun a b => inferInstanceAs (Decidable (b.date ≤ a.date))

instance : IsTotal Post dateGe := ⟨fun a b => le_total b.date a.date⟩

instance : IsTrans Post dateGe := ⟨fun _ _ _ h1 h2 => le_trans h2 h1⟩

/-- Posts sorted most-recent-first, as returned by
`Post.find().sort({ date: -1 })`. -/
def sortByDateDesc (store : List Post) : List Post :=
  List.insertionSort dateGe store

/-- GET `api/posts` — list all posts, sorted by date descending.  The
store is not modified. -/
def getAllPostsHandler (store : List Post) : Response :=
  ⟨200, Body.posts (sortByDateDesc store)⟩

/-- GET `api/posts/:id` — get a post by id.  When no post matches, the
source executes `return status(404).json(...)` with an unqualified
`status`: the ReferenceError it throws is caught by the handler's `catch`,
whose `err.kind === 'ObjectId'` test fails for a ReferenceError, so the
handler answers 500 `Server error` (the 404 branch of the catch is only
reachable for a malformed ObjectId, which has no counterpart for plain
string ids). -/
def getPostHandler (store : List Post) (pid : String) : Response :=
  match findById store pid with
  | none => ⟨500, Body.text "Server error"⟩
  | some post => ⟨200, Body.post post⟩

/-- DELETE `api/posts/:id` — delete a post.  A missing post makes
`post.user` throw (caught as 500, no change); a caller different from the
stored owner gets 401 and the post is kept; otherwise `post.remove()`
deletes the document. -/
def deletePostHandler (store : List Post) (userId pid : String) :
    Response × List Post :=
  match findById store pid with
  | none => (⟨500, Body.text "Server error"⟩, store)
  | some post =>
      if post.user ≠ userId then
        (⟨401, Body.msg "User not authorized"⟩, store)
      else
        (⟨200, Body.msg "Post removed"⟩, store.filter (fun q => q.id ≠ pid))

/-- PUT `api/posts/like/:id` — like a post.  A missing post makes
`post.likes` throw (caught as 500, no change); if the caller already
appears among the likes the handler answers 400 without saving; otherwise
the caller is unshifted onto `likes` and the document saved. -/
def likeHandler (store : List Post) (userId pid : String) :
    Response × List Post :=
  match findById store pid with
  | none => (⟨500, Body.text "Server error"⟩, store)
  | some post =>
      if 0 < (post.likes.filter (fun like => like.user = userId)).length then
        (⟨400, Body.msg "Post already liked"⟩, store)
      else
        let post2 : Post := { post with likes := ⟨userId⟩ :: post.likes }
        (⟨200, Body.likes post2.likes⟩, save store post2)

/-- PUT `api/posts/unlike/:id` — unlike a post.  A missing post makes
`post.likes` throw (caught as 500, no change); if the caller does not
appear among the likes the handler answers 400 without saving; otherwise
the entry at `indexOf` the caller among the like users is spliced out and
the document saved. -/
def unlikeHandler (store : List Post) (userId pid : String) :
    Response × List Post :=
  match findById store pid with
  | none => (⟨500, Body.text "Server error"⟩, store)
  | some post =>
      if (post.likes.filter (fun like => like.user = userId)).length = 0 then
        (⟨400, Body.msg "Post has not yet being liked"⟩, store)
      else
        let removeIndex := jsIndexOf (post.likes.map (fun like => like.user)) userId
        let post2 : Post := { post with likes := jsSpliceRemoveOne post.likes removeIndex }
        (⟨200, Body.likes post2.likes⟩, save store post2)

/-- POST `api/posts/comment/:id` — comment on a post.  Validation as for
create; a missing user record or missing post makes the subsequent
dereference throw (caught as 500, no change); otherwise the new comment is
unshifted onto `comments` and the document saved.  The store assigns the
comment id `newId`. -/
def addCommentHandler (store : List Post) (users : List UserRec)
    (userId pid text newId : String) : Response × List Post :=
  if text = "" then
    (⟨400, Body.errors ["Text is required"]⟩, store)
  else
    match users.find? (fun u => u.id = userId) with
    | none => (⟨500, Body.text "Server error"⟩, store)
    | some u =>
        match findById store pid with
        | none => (⟨500, Body.text "Server error"⟩, store)
        | some post =>
            let newComment : Comment :=
              { id := newId, text := text, name := u.name, avatar := u.avatar,
                user := userId }
            let post2 : Post := { post with comments := newComment :: post.comments }
            (⟨200, Body.comments post2.comments⟩, save store post2)

/-- DELETE `api/posts/comment/:id/:comment_id` — delete a comment.  A
missing post makes `post.comments` throw (caught as 500, no change); the
comment is looked up by its id (404 if absent); a caller different from
the comment's author gets 401; otherwise — exactly as the source — the
removal index is computed as `indexOf` the CALLER'S id among the comment
authors, not the index of the looked-up comment, and that position is
spliced out and the document saved. -/
def deleteCommentHandler (store : List Post) (userId pid commentId : String) :
    Response × List Post :=
  match findById store pid with
  | none => (⟨500, Body.text "Server error"⟩, store)
  | some post =>
      match post.comments.find? (fun c => c.id = commentId) with
      | none => (⟨404, Body.msg "Comment does not exist"⟩, store)
      | some comment =>
          if comment.user ≠ userId then
            (⟨401, Body.msg "User not authorized"⟩, store)
          else
            let removeIndex :=
              jsIndexOf (post.comments.map (fun c => c.user)) userId
            let post2 : Post :=
              { post with comments := jsSpliceRemoveOne post.comments removeIndex }
            (⟨200, Body.comments post2.comments⟩, save store post2)

/-- The likes invariant of the data model: a post's likes contain at most
one entry per user identity. -/
def likesNodup (p : Post) : Prop := (p.likes.map (fun like => like.user)).Nodup

/-- The store-wide likes invariant: every stored post satisfies
`likesNodup`. -/
def storeInv (store : List Post) : Prop := ∀ p ∈ store, likesNodup p

/-- A post found by id is a member of the store. -/
theorem mem_of_findById {store : List Post} {pid : String} {post : Post}
    (h : findById store pid = some post) : post ∈ store :=
  List.mem_of_find?_eq_some h

/-- A post found by id carries that id. -/
theorem findById_id {store : List Post} {pid : String} {post : Post}
    (h : findById store pid = some post) : post.id = pid := by
  unfold findById at h
  simpa using List.find?_some h

/-- Saving a document whose id was findable makes that document the one
found afterwards. -/
theorem findById_save :
    ∀ (store : List Post) (pid : String) (post p2 : Post),
      findById store pid = some post → p2.id = pid →
      findById (save store p2) pid = some p2
  | [], _, _, _, h, _ => by simp [findById] at h
  | q :: rest, pid, post, p2, h, hid => by
      by_cases hq : q.id = pid
      · simp [findById, save, List.find?, hq, hid]
      · have h2 : findById rest pid = some post := by
          simpa [findById, List.find?, hq] using h
        have hq2 : ¬ q.id = p2.id := by rw [hid]; exact hq
        simpa [findById, save, List.find?, hq, hq2]
          using findById_save rest pid post p2 h2 hid

/-- Membership in a saved store: either the saved document or an original
member. -/
theorem mem_save {store : List Post} {p2 q : Post} (h : q ∈ save store p2) :
    q = p2 ∨ q ∈ store := by
  unfold save at h
  rcases List.mem_map.1 h with ⟨r, hr, hq⟩
  by_cases hid : r.id = p2.id
  · left
    simp only [hid, if_true] at hq
    exact hq.symm
  · right
    simp only [hid, if_false] at hq
    exact hq ▸ hr

/-- Dropping position `s` from a list, as `take s ++ drop (s+1)`, yields a
sublist. -/
theorem take_drop_sublist (l : List α) (s : Nat) :
    List.Sublist (l.take s ++ l.drop (s + 1)) l := by
  rw [← List.eraseIdx_eq_take_drop_succ]
  exact List.eraseIdx_sublist l s

/-- A JavaScript one-element splice yields a sublist of the original
array. -/
theorem jsSpliceRemoveOne_sublist (l : List α) (i : Int) :
    List.Sublist (jsSpliceRemoveOne l i) l :=
  take_drop_sublist l _

/-- Saving a document with nodup likes into a store satisfying the
invariant keeps the invariant. -/
theorem storeInv_save {store : List Post} {p2 : Post} (hinv : storeInv store)
    (hp2 : likesNodup p2) : storeInv (save store p2) := by
  intro q hq
  rcases mem_save hq with rfl | hq2
  · exact hp2
  · exact hinv q hq2

/-- An empty caller-filter over the likes means the caller's id is not
among the like users. -/
theorem not_mem_of_filter_len_zero {likes : List Like} {u : String}
    (h : ¬ 0 < (likes.filter (fun like => like.user = u)).length) :
    u ∉ likes.map (fun like => like.user) := by
  intro hmem
  obtain ⟨like, hlike, hu⟩ := List.mem_map.1 hmem
  exact h (List.length_pos_of_mem (List.mem_filter.2 ⟨hlike, by simp [hu]⟩))

/-- Concrete fixture for witnesses: a post owned by "owner" with one like
by "u" and one comment by "u". -/
def wPostA : Post :=
  { id := "p1", text := "hello", name := "Ann", avatar := "av", user := "owner",
    likes := [⟨"u"⟩], comments := [⟨"c1", "t1", "Ann", "av", "u"⟩], date := 5 }

/-- Concrete fixture for witnesses: a post with no likes and no
comments. -/
def wPostB : Post :=
  { id := "p2", text := "hey", name := "Bob", avatar := "av2", user := "owner",
    likes := [], comments := [], date := 6 }

/-- Concrete fixture for the delete-comment counterexample: a post whose
two comments are both authored by "u", the newer one with id "c1" and the
older one with id "c2". -/
def wPostC : Post :=
  { id := "p1", text := "hello", name := "Ann", avatar := "av", user := "owner",
    likes := [],
    comments := [⟨"c1", "t1", "Ann", "av", "u"⟩, ⟨"c2", "t2", "Ann", "av", "u"⟩],
    date := 0 }

/-- Concrete fixture user record for witnesses. -/
def wUser : UserRec := ⟨"u", "Ann", "av"⟩

/-- C1: the delete-comment handler, called by author "u" on comment id
"c2" of a post whose comments (newest first) are "c1" then "c2", both by
"u", answers 200 but removes comment "c1" — the comments it returns and
stores are exactly `["c2"]`, not the `["c1"]` the claim requires: the
removal index is computed from the caller's id among comment authors, not
from the addressed comment's id. -/
theorem deleteComment_removes_wrong_comment :
    deleteCommentHandler [wPostC] "u" "p1" "c2"
      = (⟨200, Body.comments [⟨"c2", "t2", "Ann", "av", "u"⟩]⟩,
         [{ wPostC with comments := [⟨"c2", "t2", "Ann", "av", "u"⟩] }]) := by
  decide

/-- C2: for a well-formed id matching no stored post, the get-by-id
handler answers 500 "Server error", not the 404 "Post not found" the claim
states: the not-found branch's unqualified `status(404)` throws a
ReferenceError, which the catch maps to 500 since it has no
`kind === 'ObjectId'`. -/
theorem getPost_missing_returns_500 (store : List Post) (pid : String)
    (hfind : findById store pid = none) :
    getPostHandler store pid = ⟨500, Body.text "Server error"⟩ := by
  simp [getPostHandler, hfind]

/-- Witness for C2 at the empty store and id "p1". -/
theorem getPost_missing_returns_500_witness :
    getPostHandler [] "p1" = ⟨500, Body.text "Server error"⟩ :=
  getPost_missing_returns_500 [] "p1" rfl

/-- C3: a like request by a user already present in the post's likes is
rejected with 400 "Post already liked" and the store — hence the post's
likes sequence and its length — is unchanged: no save is performed. -/
theorem like_already_liked_rejected (store : List Post) (u pid : String)
    (post : Post) (hfind : findById store pid = some post)
    (hmem : u ∈ post.likes.map (fun like => like.user)) :
    likeHandler store u pid = (⟨400, Body.msg "Post already liked"⟩, store) := by
  obtain ⟨like, hlike, hu⟩ := List.mem_map.1 hmem
  have hpos : 0 < (post.likes.filter (fun l2 => l2.user = u)).length :=
    List.length_pos_of_mem (List.mem_filter.2 ⟨hlike, by simp [hu]⟩)
  simp [likeHandler, hfind, hpos]

/-- Witness for C3: user "u" has already liked `wPostA`. -/
theorem like_already_liked_rejected_witness :
    likeHandler [wPostA] "u" "p1"
      = (⟨400, Body.msg "Post already liked"⟩, [wPostA]) :=
  like_already_liked_rejected [wPostA] "u" "p1" wPostA (by decide) (by decide)

/-- C4: an unlike request by a user not present in the post's likes is
rejected with 400 "Post has not yet being liked" and the store — hence the
post's likes sequence and its length — is unchanged: no save is
performed. -/
theorem unlike_not_liked_rejected (store : List Post) (u pid : String)
    (post : Post) (hfind : findById store pid = some post)
    (hmem : u ∉ post.likes.map (fun like => like.user)) :
    unlikeHandler store u pid
      = (⟨400, Body.msg "Post has not yet being liked"⟩, store) := by
  have hfil : (post.likes.filter (fun l2 => l2.user = u)).length = 0 := by
    rw [List.length_eq_zero, List.filter_eq_nil_iff]
    intro like hlike
    simp only [decide_eq_true_eq]
    intro hu
    exact hmem (List.mem_map.2 ⟨like, hlike, hu⟩)
  simp [unlikeHandler, hfind, hfil]

/-- Witness for C4: user "u" has not liked `wPostB`. -/
theorem unlike_not_liked_rejected_witness :
    unlikeHandler [wPostB] "u" "p2"
      = (⟨400, Body.msg "Post has not yet being liked"⟩, [wPostB]) :=
  unlike_not_liked_rejected [wPostB] "u" "p2" wPostB (by decide) (by decide)

/-- C6: a delete-post request by a caller who is not the stored owner is
rejected with 401 "User not authorized", the store is unchanged, and the
post is still retrievable by id afterwards. -/
theorem delete_nonowner_rejected (store : List Post) (u pid : String)
    (post : Post) (hfind : findById store pid = some post)
    (hown : post.user ≠ u) :
    deletePostHandler store u pid
        = (⟨401, Body.msg "User not authorized"⟩, store) ∧
    findById (deletePostHandler store u pid).2 pid = some post := by
  have h1 : deletePostHandler store u pid
      = (⟨401, Body.msg "User not authorized"⟩, store) := by
    simp [deletePostHandler, hfind, hown]
  exact ⟨h1, by rw [h1]; exact hfind⟩

/-- Witness for C6: caller "u" is not the owner "owner" of `wPostA`. -/
theorem delete_nonowner_rejected_witness :
    (deletePostHandler [wPostA] "u" "p1"
        = (⟨401, Body.msg "User not authorized"⟩, [wPostA])) ∧
    findById (deletePostHandler [wPostA] "u" "p1").2 "p1" = some wPostA :=
  delete_nonowner_rejected [wPostA] "u" "p1" wPostA (by decide) (by decide)

/-- C8: creating a post with an empty text field is rejected with 400 and
the field-error list "Text is required", and the store is returned
untouched — no document is persisted. -/
theorem create_empty_text_rejected (store : List Post) (users : List UserRec)
    (u newId : String) (now : Int) :
    createPostHandler store users u "" newId now
      = (⟨400, Body.errors ["Text is required"]⟩, store) := by
  simp [createPostHandler]

/-- C9: the list handler answers 200 with a list that is a permutation of
the whole store (every post, each exactly once) and is sorted by creation
date descending. -/
theorem list_all_posts_sorted_desc (store : List Post) :
    getAllPostsHandler store = ⟨200, Body.posts (sortByDateDesc store)⟩ ∧
    (sortByDateDesc store).Perm store ∧
    List.Sorted dateGe (sortByDateDesc store) :=
  ⟨rfl, List.perm_insertionSort dateGe store,
    List.sorted_insertionSort dateGe store⟩

/-- C10: for a well-formed id matching no stored post, both the like and
the unlike handler answer 500 "Server error" (the null post dereference
throws, and the catch has no 404 branch) and neither modifies the
store. -/
theorem like_unlike_missing_post_500 (store : List Post) (u pid : String)
    (hfind : findById store pid = none) :
    likeHandler store u pid = (⟨500, Body.text "Server error"⟩, store) ∧
    unlikeHandler store u pid = (⟨500, Body.text "Server error"⟩, store) := by
  constructor
  · simp [likeHandler, hfind]
  · simp [unlikeHandler, hfind]

/-- Witness for C10 at a one-post store and an id matching nothing. -/
theorem like_unlike_missing_post_500_witness :
    (likeHandler [wPostA] "u" "zz" = (⟨500, Body.text "Server error"⟩, [wPostA])) ∧
    unlikeHandler [wPostA] "u" "zz" = (⟨500, Body.text "Server error"⟩, [wPostA]) :=
  like_unlike_missing_post_500 [wPostA] "u" "zz" (by decide)

/-- C5: for a user not yet among a post's likes, liking and then unliking
answers 200 with exactly the pre-like likes sequence, and the post stored
afterwards is the original post — like then unlike is the identity on the
post. -/
theorem like_unlike_roundtrip (store : List Post) (u pid : String)
    (post : Post) (hfind : findById store pid = some post)
    (hno : u ∉ post.likes.map (fun like => like.user)) :
    (unlikeHandler (likeHandler store u pid).2 u pid).1
        = ⟨200, Body.likes post.likes⟩ ∧
    findById (unlikeHandler (likeHandler store u pid).2 u pid).2 pid
        = some post := by
  have hid : post.id = pid := findById_id hfind
  have hlen : ¬ 0 < (post.likes.filter (fun l2 => l2.user = u)).length := by
    intro hpos
    obtain ⟨like, hmemf⟩ := List.exists_mem_of_length_pos hpos
    have h2 := List.mem_filter.1 hmemf
    exact hno (List.mem_map.2 ⟨like, h2.1, of_decide_eq_true h2.2⟩)
  have hstep1 : (likeHandler store u pid).2
      = save store { post with likes := ⟨u⟩ :: post.likes } := by
    simp [likeHandler, hfind, hlen]
  have hfind2 : findById (save store { post with likes := ⟨u⟩ :: post.likes }) pid
      = some { post with likes := ⟨u⟩ :: post.likes } :=
    findById_save store pid post _ hfind hid
  constructor
  · rw [hstep1]
    simp [unlikeHandler, hfind2, jsIndexOf, firstIdx, jsSpliceRemoveOne]
  · rw [hstep1]
    have hstep2 : (unlikeHandler
          (save store { post with likes := ⟨u⟩ :: post.likes }) u pid).2
        = save (save store { post with likes := ⟨u⟩ :: post.likes }) post := by
      simp [unlikeHandler, hfind2, jsIndexOf, firstIdx, jsSpliceRemoveOne]
    rw [hstep2]
    exact findById_save _ pid _ post hfind2 hid

/-- Witness for C5: user "u" likes then unlikes `wPostB`, which they had
not liked. -/
theorem like_unlike_roundtrip_witness :
    ((unlikeHandler (likeHandler [wPostB] "u" "p2").2 "u" "p2").1
        = ⟨200, Body.likes wPostB.likes⟩) ∧
    findById (unlikeHandler (likeHandler [wPostB] "u" "p2").2 "u" "p2").2 "p2"
        = some wPostB :=
  like_unlike_roundtrip [wPostB] "u" "p2" wPostB (by decide) (by decide)

/-- The like handler preserves the store-wide likes invariant. -/
theorem likeHandler_inv (store : List Post) (u pid : String)
    (hinv : storeInv store) : storeInv (likeHandler store u pid).2 := by
  cases hfind : findById store pid with
  | none => simpa [likeHandler, hfind] using hinv
  | some post =>
      by_cases hlen : 0 < (post.likes.filter (fun like => like.user = u)).length
      · simpa [likeHandler, hfind, hlen] using hinv
      · have h1 := hinv post (mem_of_findById hfind)
        have h2 := not_mem_of_filter_len_zero hlen
        have hnodup : likesNodup { post with likes := ⟨u⟩ :: post.likes } := by
          show (List.map (fun like => like.user) (⟨u⟩ :: post.likes)).Nodup
          rw [List.map_cons]
          exact List.nodup_cons.2 ⟨h2, h1⟩
        simpa [likeHandler, hfind, hlen] using storeInv_save hinv hnodup

/-- The unlike handler preserves the store-wide likes invariant. -/
theorem unlikeHandler_inv (store : List Post) (u pid : String)
    (hinv : storeInv store) : storeInv (unlikeHandler store u pid).2 := by
  cases hfind : findById store pid with
  | none => simpa [unlikeHandler, hfind] using hinv
  | some post =>
      by_cases hlen : (post.likes.filter (fun like => like.user = u)).length = 0
      · simpa [unlikeHandler, hfind, hlen] using hinv
      · have h1 := hinv post (mem_of_findById hfind)
        have hnodup : likesNodup { post with
            likes := jsSpliceRemoveOne post.likes
              (jsIndexOf (post.likes.map (fun like => like.user)) u) } := by
          simp only [likesNodup]
          exact List.Nodup.sublist
            (List.Sublist.map _ (jsSpliceRemoveOne_sublist post.likes _)) h1
        simpa [unlikeHandler, hfind, hlen] using storeInv_save hinv hnodup

/-- The comment handler preserves the store-wide likes invariant (it never
touches likes). -/
theorem addCommentHandler_inv (store : List Post) (users : List UserRec)
    (u pid tx nid : String) (hinv : storeInv store) :
    storeInv (addCommentHandler store users u pid tx nid).2 := by
  by_cases htext : tx = ""
  · simpa [addCommentHandler, htext] using hinv
  · cases huser : users.find? (fun r => r.id = u) with
    | none => simpa [addCommentHandler, htext, huser] using hinv
    | some r =>
        cases hfind : findById store pid with
        | none => simpa [addCommentHandler, htext, huser, hfind] using hinv
        | some post =>
            have hnodup : likesNodup { post with comments :=
                ({ id := nid, text := tx, name := r.name, avatar := r.avatar,
                   user := u } : Comment) :: post.comments } :=
              hinv post (mem_of_findById hfind)
            simpa [addCommentHandler, htext, huser, hfind]
              using storeInv_save hinv hnodup

/-- The delete-comment handler preserves the store-wide likes invariant
(it never touches likes). -/
theorem deleteCommentHandler_inv (store : List Post) (u pid cid : String)
    (hinv : storeInv store) :
    storeInv (deleteCommentHandler store u pid cid).2 := by
  cases hfind : findById store pid with
  | none => simpa [deleteCommentHandler, hfind] using hinv
  | some post =>
      cases hcom : post.comments.find? (fun c => c.id = cid) with
      | none => simpa [deleteCommentHandler, hfind, hcom] using hinv
      | some comment =>
          by_cases hauth : comment.user ≠ u
          · simpa [deleteCommentHandler, hfind, hcom, hauth] using hinv
          · have hnodup : likesNodup { post with comments :=
                (jsSpliceRemoveOne post.comments
                  (jsIndexOf (post.comments.map (fun c => c.user)) u)) } :=
              hinv post (mem_of_findById hfind)
            simpa [deleteCommentHandler, hfind, hcom, hauth]
              using storeInv_save hinv hnodup

/-- The create handler preserves the store-wide likes invariant (the new
post has no likes). -/
theorem createPostHandler_inv (store : List Post) (users : List UserRec)
    (u tx nid : String) (now : Int) (hinv : storeInv store) :
    storeInv (createPostHandler store users u tx nid now).2 := by
  by_cases htext : tx = ""
  · simpa [createPostHandler, htext] using hinv
  · cases huser : users.find? (fun r => r.id = u) with
    | none => simpa [createPostHandler, htext, huser] using hinv
    | some r =>
        intro q hq
        simp only [createPostHandler, htext, huser, if_neg] at hq
        rcases List.mem_cons.1 (by simpa [htext, huser] using hq) with rfl | hq2
        · simp [likesNodup]
        · exact hinv q hq2

/-- The delete-post handler preserves the store-wide likes invariant
(removal only shrinks the store). -/
theorem deletePostHandler_inv (store : List Post) (u pid : String)
    (hinv : storeInv store) : storeInv (deletePostHandler store u pid).2 := by
  cases hfind : findById store pid with
  | none => simpa [deletePostHandler, hfind] using hinv
  | some post =>
      by_cases hown : post.user ≠ u
      · simpa [deletePostHandler, hfind, hown] using hinv
      · have heq : (deletePostHandler store u pid).2
            = store.filter (fun q => q.id ≠ pid) := by
          simp [deletePostHandler, hfind, hown]
        rw [heq]
        intro q hq
        exact hinv q (List.mem_of_mem_filter hq)

/-- C7: starting from a store in which every post's likes hold at most one
entry per user, each of the six controller operations — like, unlike,
comment, delete-comment, create, delete-post — leaves every stored post
satisfying that invariant. -/
theorem controller_preserves_likes_nodup (store : List Post)
    (users : List UserRec) (u pid tx cid nid : String) (now : Int)
    (hinv : storeInv store) :
    storeInv (likeHandler store u pid).2 ∧
    storeInv (unlikeHandler store u pid).2 ∧
    storeInv (addCommentHandler store users u pid tx nid).2 ∧
    storeInv (deleteCommentHandler store u pid cid).2 ∧
    storeInv (createPostHandler store users u tx nid now).2 ∧
    storeInv (deletePostHandler store u pid).2 :=
  ⟨likeHandler_inv store u pid hinv,
   unlikeHandler_inv store u pid hinv,
   addCommentHandler_inv store users u pid tx nid hinv,
   deleteCommentHandler_inv store u pid cid hinv,
   createPostHandler_inv store users u tx nid now hinv,
   deletePostHandler_inv store u pid hinv⟩

instance (p : Post) : Decidable (likesNodup p) :=
  inferInstanceAs (Decidable ((p.likes.map (fun like : Like => like.user)).Nodup))

instance (store : List Post) : Decidable (storeInv store) :=
  inferInstanceAs (Decidable (∀ p ∈ store, likesNodup p))

/-- Witness for C7 on the one-post store `[wPostA]`. -/
theorem controller_preserves_likes_nodup_witness :
    storeInv (likeHandler [wPostA] "u" "p1").2 ∧
    storeInv (unlikeHandler [wPostA] "u" "p1").2 ∧
    storeInv (addCommentHandler [wPostA] [wUser] "u" "p1" "hi" "c9").2 ∧
    storeInv (deleteCommentHandler [wPostA] "u" "p1" "c1").2 ∧
    storeInv (createPostHandler [wPostA] [wUser] "u" "hi" "c9" 7).2 ∧
    storeInv (deletePostHandler [wPostA] "u" "p1").2 :=
  controller_preserves_likes_nodup [wPostA] [wUser] "u" "p1" "hi" "c1" "c9" 7
    (by decide)

end OuSocial
